import Mathlib

/-!
Verification of the beyond_belief_py posting pipeline.

This file gives a shallow embedding, in Lean 4, of the parts of the
repository that the verified properties are about:

* `src/services/reddit_cache_manager.py` — the Reddit content cache
  (`cache_reddit_posts`, `get_unposted_reddit_posts`,
  `mark_reddit_post_as_posted`, `clean_old_reddit_posts`,
  `reset_reddit_cache`).  The JSON files on disk are modelled as the
  already-parsed lists they hold (`CacheState`); the md5 fallback hash of
  `_generate_post_id` is abstracted as a function parameter `fh`, and the
  wall clock as an explicit `now : String` argument.
* `src/services/facebook_service.py` — the Poster
  (`post_text`, `post_image`, `post_video`, `is_video_url`, `smart_post`).
  HTTP outcomes are supplied by an environment record; Python exceptions
  become `Except` results, and the set of local media files created by a
  `smart_post` call and still on disk when it finishes is returned
  explicitly.
* `src/services/automation_service.py` — the article selector
  (`select_article_for_posting`) and the statistics bookkeeping of
  `create_and_post_content` / `_post_news_content`.

Python dictionaries with optional keys become structures with `Option`
fields; Python truthiness of a string value is modelled by the test
against the empty string.  Python `list.sort(key=..., reverse=True)` is a
stable sort by the key, descending; it is modelled by the stable insertion
sort `sortByKeyDesc` below.
-/

namespace BeyondBelief

/-- Stable insertion of `x` in front of the first element whose key is
not larger, into a list sorted by `key` descending.  Elements already in
the list came later in the original list, so on equal keys `x` goes
first: this realises the stability of the Python sort. -/
def insertDesc (key : α → Int) (x : α) : List α → List α
  | [] => [x]
  | y :: ys => if key y ≤ key x then x :: y :: ys else y :: insertDesc key x ys

/-- Stable sort by `key`, descending: the semantics of
`list.sort(key=..., reverse=True)` in Python. -/
def sortByKeyDesc (key : α → Int) : List α → List α
  | [] => []
  | x :: xs => insertDesc key x (sortByKeyDesc key xs)

/-- A Reddit submission record as stored in `reddit_cache.json`, and as
received from the Reddit fetcher.  Optional dictionary keys are `Option`
fields; a Python value that is present but empty is `some ""`. -/
structure RedditPost where
  id : Option String
  title : String
  subreddit : String
  created_utc : String
  score : Int
  selftext : String
  posted : Bool
  post_id : Option String
  cached_at : Option String
  posted_at : Option String
deriving DecidableEq, Repr

/-- An entry of the append-only `posted_reddit.json` log, as written by
`mark_reddit_post_as_posted`. -/
structure PostedEntry where
  post_id : String
  reddit_title : String
  subreddit : String
  reddit_score : Int
  posted_at : String
  facebook_post_id : Option String
  source : String
deriving DecidableEq, Repr

/-- The persistent state of `RedditCacheManager`: the parsed contents of
`reddit_cache.json` (pending cache) and `posted_reddit.json` (ever-posted
log). -/
structure CacheState where
  cache : List RedditPost
  posted : List PostedEntry
deriving DecidableEq, Repr

/-- Embeds `RedditCacheManager._generate_post_id`: use the native Reddit
id when present and non-empty, otherwise hash title+subreddit+created_utc.
The md5 hex digest is abstracted by the parameter `fh`. -/
def generate_post_id (fh : String → String) (p : RedditPost) : String :=
  match p.id with
  | some i => if i = "" then fh (p.title ++ p.subreddit ++ p.created_utc) else i
  | none => fh (p.title ++ p.subreddit ++ p.created_utc)

/-- The record written into the pending cache for a newly cached post:
`cache_reddit_posts` sets `cached_at`, `post_id` and `posted = False`. -/
def markCached (fh : String → String) (now : String) (p : RedditPost) : RedditPost :=
  { p with cached_at := some now, post_id := some (generate_post_id fh p), posted := false }

/-- The per-post loop of `cache_reddit_posts`: skip posts whose id is in
the ever-posted log or already in the (growing) set of cached ids,
otherwise stamp the post and collect it.  `cachedIds` plays the role of
the Python set `cached_ids`, which grows as new posts are accepted. -/
def cacheNewPosts (fh : String → String) (now : String) (postedIds : List String) :
    List String → List RedditPost → List RedditPost
  | _, [] => []
  | cachedIds, p :: ps =>
    let pid := generate_post_id fh p
    if pid ∈ postedIds then cacheNewPosts fh now postedIds cachedIds ps
    else if pid ∈ cachedIds then cacheNewPosts fh now postedIds cachedIds ps
    else markCached fh now p :: cacheNewPosts fh now postedIds (pid :: cachedIds) ps

/-- Embeds `RedditCacheManager.cache_reddit_posts`: returns the updated
state and the number of newly added posts.  When new posts are accepted
the whole pending cache is re-sorted by score descending before saving;
when nothing is new the cache file is not rewritten. -/
def cache_reddit_posts (fh : String → String) (now : String) (st : CacheState)
    (posts : List RedditPost) : CacheState × Nat :=
  if posts = [] then (st, 0)
  else
    let cachedIds := st.cache.map (generate_post_id fh)
    let postedIds := st.posted.map PostedEntry.post_id
    let newPosts := cacheNewPosts fh now postedIds cachedIds posts
    if newPosts = [] then (st, 0)
    else ({ st with cache := sortByKeyDesc RedditPost.score (st.cache ++ newPosts) },
          newPosts.length)

/-- Embeds `RedditCacheManager.get_unposted_reddit_posts`: filter the
pending cache to posts whose `posted` flag is off and whose id is not in
the ever-posted log, sort by score descending, and apply the limit.  A
limit of `some 0` is falsy in Python (`if limit:`), so it does not
truncate. -/
def get_unposted_reddit_posts (fh : String → String) (st : CacheState)
    (limit : Option Nat) : List RedditPost :=
  let postedIds := st.posted.map PostedEntry.post_id
  let unposted := st.cache.filter
    (fun p => !p.posted && !(decide (generate_post_id fh p ∈ postedIds)))
  let sorted := sortByKeyDesc RedditPost.score unposted
  match limit with
  | some n => if n = 0 then sorted else sorted.take n
  | none => sorted

/-- The in-cache update loop of `mark_reddit_post_as_posted`: set the
`posted` flag and `posted_at` stamp on the first record whose generated
id matches, and stop there (the Python loop breaks). -/
def setPostedFirst (fh : String → String) (pid now : String) :
    List RedditPost → List RedditPost
  | [] => []
  | p :: ps =>
    if generate_post_id fh p = pid
    then { p with posted := true, posted_at := some now } :: ps
    else p :: setPostedFirst fh pid now ps

/-- The ever-posted log entry appended by `mark_reddit_post_as_posted`. -/
def mkPostedEntry (fh : String → String) (now : String) (p : RedditPost)
    (facebook_post_id : Option String) : PostedEntry :=
  { post_id := generate_post_id fh p
    reddit_title := p.title
    subreddit := p.subreddit
    reddit_score := p.score
    posted_at := now
    facebook_post_id := facebook_post_id
    source := "reddit" }

/-- Embeds `RedditCacheManager.mark_reddit_post_as_posted`: append one
entry to the ever-posted log and flag the first matching pending record
as posted. -/
def mark_reddit_post_as_posted (fh : String → String) (now : String) (st : CacheState)
    (p : RedditPost) (facebook_post_id : Option String) : CacheState :=
  let pid := generate_post_id fh p
  { cache := setPostedFirst fh pid now st.cache
    posted := st.posted ++ [mkPostedEntry fh now p facebook_post_id] }

/-- Embeds `RedditCacheManager.clean_old_reddit_posts`: drop pending
records whose `cached_at` stamp fails the freshness test; records without
a stamp, or with an unparsable one, are kept.  The datetime parsing and
cutoff comparison are abstracted by `fresh` (which returns `true` for
unparsable stamps, matching the bare `except` that keeps the post).  The
ever-posted log is untouched. -/
def clean_old_reddit_posts (fresh : String → Bool) (st : CacheState) : CacheState × Nat :=
  let keep := fun (p : RedditPost) =>
    match p.cached_at with
    | none => true
    | some d => fresh d
  let freshPosts := st.cache.filter keep
  let removed := st.cache.length - freshPosts.length
  if removed > 0 then ({ st with cache := freshPosts }, removed) else (st, removed)

/-- Embeds `RedditCacheManager.reset_reddit_cache`: clears the pending
cache AND the ever-posted log. -/
def reset_reddit_cache (_st : CacheState) : CacheState :=
  { cache := [], posted := [] }

/-- A state-changing operation of `RedditCacheManager` (the read-only
queries do not change the files). -/
inductive CacheOp where
  | cacheBatch (now : String) (posts : List RedditPost)
  | markPosted (now : String) (p : RedditPost) (facebook_post_id : Option String)
  | cleanOld (fresh : String → Bool)
  | resetCache

/-- Apply one cache operation to the persistent state. -/
def applyOp (fh : String → String) : CacheOp → CacheState → CacheState
  | .cacheBatch now posts, st => (cache_reddit_posts fh now st posts).1
  | .markPosted now p fbid, st => mark_reddit_post_as_posted fh now st p fbid
  | .cleanOld fresh, st => (clean_old_reddit_posts fresh st).1
  | .resetCache, st => reset_reddit_cache st

/-- Apply a sequence of cache operations, oldest first. -/
def applyOps (fh : String → String) (ops : List CacheOp) (st : CacheState) : CacheState :=
  ops.foldl (fun s op => applyOp fh op s) st

/-- Number of pending-cache records carrying the identity key `k`. -/
def keyCount (fh : String → String) (k : String) (l : List RedditPost) : Nat :=
  l.countP (fun q => decide (generate_post_id fh q = k))

/-- The pending-cache records carrying the identity key `k`, in order. -/
def keyFilter (fh : String → String) (k : String) (l : List RedditPost) : List RedditPost :=
  l.filter (fun q => decide (generate_post_id fh q = k))

/-- First-occurrence deduplication of a key list against a set of already
seen keys: the specification of which identity keys a batch contributes. -/
def dedupKeepFirst (seen : List String) : List String → List String
  | [] => []
  | k :: ks =>
    if k ∈ seen then dedupKeepFirst seen ks else k :: dedupKeepFirst (k :: seen) ks

/-- Helper for `strContains`, on the character lists of the strings. -/
def strContainsAux (sub : List Char) : List Char → Bool
  | [] => sub.isEmpty
  | c :: cs => (sub.isPrefixOf (c :: cs)) || strContainsAux sub cs

/-- Python substring containment (`sub in s`). -/
def strContains (s sub : String) : Bool :=
  strContainsAux sub.data s.data

/-- Python `s.lower()`, character by character. -/
def lowerStr (s : String) : String := String.mk (s.data.map Char.toLower)

/-- Python `s.endswith(suffix)`. -/
def strEndsWith (s suffix : String) : Bool :=
  suffix.data.reverse.isPrefixOf s.data.reverse

/-- The parsed JSON body of a successful Graph API call, reduced to the
one field the callers read (`response.get("id")`). -/
structure FBResponse where
  id : Option String
deriving DecidableEq, Repr

/-- Outcome of one HTTP POST to the Graph API, as distinguished by the
Python code: a 2xx response with a parsed body, a 400 response (whose
error message may or may not indicate an expired token), or a transport
failure / non-400 error status (both raise `requests.RequestException`,
the latter through `raise_for_status`). -/
inductive HttpOutcome where
  | success (resp : FBResponse)
  | badRequest (authExpired : Bool)
  | transportError
deriving DecidableEq, Repr

/-- A Python exception escaping a Poster call: `ValueError` raised by the
400 handler of `post_text`, or a re-raised `requests.RequestException`. -/
inductive PostError where
  | valueError (msg : String)
  | requestError
deriving DecidableEq, Repr

deriving instance DecidableEq for Except

/-- Environment of the Poster: the platform outcome of each kind of
publish call as a function of the message sent with it, and the state of
the local artifact file handed to `post_image` / `post_video`
(`os.path.exists`, `os.path.getsize`, and the magic-bytes video format
check of the source). -/
structure FBEnv where
  feedOutcome : String → HttpOutcome
  photoOutcome : String → HttpOutcome
  videoOutcome : String → HttpOutcome
  fileExists : Bool
  fileSize : Nat
  isValidVideo : Bool

/-- The truncation applied by `FacebookService.post_text` before sending:
messages longer than 1000 characters are cut to 997 characters plus a
three-character ellipsis marker.  `message[:997]` is modelled on the
character list of the string. -/
def truncate_message (message : String) : String :=
  if message.length > 1000 then String.mk (message.data.take 997) ++ "..." else message

/-- Embeds `FacebookService.post_text`: truncate the message, send it to
the feed endpoint.  Any 400 response ends in the `ValueError` of the bare
`except` handler (which also swallows the more specific `ValueError`s
raised inside the `try`); a transport failure or a non-400 error status
is re-raised. -/
def post_text (env : FBEnv) (message : String) : Except PostError FBResponse :=
  match env.feedOutcome (truncate_message message) with
  | .success r => .ok r
  | .badRequest _ => .error (.valueError "Facebook API returned 400 Bad Request")
  | .transportError => .error .requestError

/-- Embeds `FacebookService.post_image`: a missing file (the raised
`FileNotFoundError` is caught by the blanket `except`), an oversized file
(over 4MB), a 400 response, or a transport failure all fall back to the
text-only publish; only a 2xx response returns directly. -/
def post_image (env : FBEnv) (message : String) : Except PostError FBResponse :=
  if !env.fileExists then post_text env message
  else if env.fileSize > 4 * 1024 * 1024 then post_text env message
  else
    match env.photoOutcome message with
    | .success r => .ok r
    | .badRequest _ => post_text env message
    | .transportError => post_text env message

/-- Embeds `FacebookService.post_video`: a missing file, an oversized
file (over 100MB), an invalid video format, a 400 response, or a
transport failure all fall back to posting the same artifact as an
image; only a 2xx response returns directly. -/
def post_video (env : FBEnv) (message : String) : Except PostError FBResponse :=
  if !env.fileExists then post_image env message
  else if env.fileSize > 100 * 1024 * 1024 then post_image env message
  else if !env.isValidVideo then post_image env message
  else
    match env.videoOutcome message with
    | .success r => .ok r
    | .badRequest _ => post_image env message
    | .transportError => post_image env message

/-- Embeds `FacebookService.is_video_url`: extension or known
video-hosting domain check on the lowercased URL. -/
def is_video_url (url : String) : Bool :=
  if url = "" then false
  else
    let video_extensions := [".mp4", ".mov", ".avi", ".mkv", ".webm", ".flv", ".wmv", ".m4v"]
    let video_domains := ["v.redd.it", "gfycat.com", "imgur.com/a/", "streamable.com"]
    let url_lower := lowerStr url
    video_extensions.any (fun ext => strEndsWith url_lower ext) ||
      video_domains.any (fun d => strContains url_lower d)

/-- One entry of a Reddit `preview_images` list. -/
structure PreviewImage where
  url : Option String
  width : Nat
  height : Nat
deriving DecidableEq, Repr

/-- Environment of `smart_post` on top of the Poster environment: the
result of downloading a given URL as a video or as an image (the network
and disk side of `download_video` / `download_image`, which return a
local filename or `None`), and the result of the Meta AI image
generation fallback.  Downloads are deterministic here, so the repeated
retry loops of the source collapse to a single attempt. -/
structure SmartEnv extends FBEnv where
  downloadVideoResult : String → Option String
  downloadImageResult : String → Option String
  aiImageResult : Option String

/-- The preview-image loops of `smart_post`: try each preview URL in
order until a download succeeds.  All three loops in the source (video
fallback, gallery branch, step 2) have this behaviour once downloads are
deterministic, including the inner two-attempt retry of the gallery
branch. -/
def try_preview_images (env : SmartEnv) : List PreviewImage → Option String
  | [] => none
  | pv :: rest =>
    match pv.url with
    | some u =>
      if u = "" then try_preview_images env rest
      else
        match env.downloadImageResult u with
        | some path => some path
        | none => try_preview_images env rest
    | none => try_preview_images env rest

/-- Steps 1 to 3 of `FacebookService.smart_post`: resolve the media URL
and preview list to a local media file (and whether it is a video).
Step 1 handles the main URL (video download with preview fallback, the
Reddit gallery shortcut, or image download with preview fallback);
step 2 retries the preview list whenever no file was obtained; step 3
falls back to AI image generation when a title or description exists. -/
def acquire_media (env : SmartEnv) (media_url : Option String)
    (article_title article_description : String)
    (preview_images : List PreviewImage) : Option String × Bool :=
  let step1 : Option String × Bool :=
    match media_url with
    | some u =>
      if u = "" then (none, false)
      else if is_video_url u then
        match env.downloadVideoResult u with
        | some p => (some p, true)
        | none => (try_preview_images env preview_images, false)
      else if strContains u "reddit.com/gallery/" then
        (try_preview_images env preview_images, false)
      else
        match env.downloadImageResult u with
        | some p => (some p, false)
        | none => (try_preview_images env preview_images, false)
    | none => (none, false)
  let step2 : Option String × Bool :=
    match step1 with
    | (none, _) => (try_preview_images env preview_images, false)
    | r => r
  match step2 with
  | (none, _) =>
    if article_title ≠ "" || article_description ≠ "" then (env.aiImageResult, false)
    else (none, false)
  | r => r

/-- Embeds `FacebookService.smart_post`.  The second component is the
list of local media files created by this call and still on disk when it
finishes: after a publish call that returns, the artifact is unlinked;
when the publish raises, the exception propagates through the
`except Exception: raise` handler and the unlink is never reached. -/
def smart_post (env : SmartEnv) (message : String) (media_url : Option String)
    (article_title article_description : String)
    (preview_images : List PreviewImage) :
    Except PostError FBResponse × List String :=
  match acquire_media env media_url article_title article_description preview_images with
  | (some media_path, is_video) =>
    let resp := if is_video then post_video env.toFBEnv message
                else post_image env.toFBEnv message
    match resp with
    | .ok r => (.ok r, [])
    | .error e => (.error e, [media_path])
  | (none, _) => (post_text env.toFBEnv message, [])

/-- A news article as handled by `select_article_for_posting`.  Every
field the scorer reads can be missing or `None` in the source
dictionaries, so each is an `Option`. -/
structure Article where
  title : Option String
  description : Option String
  image_url : Option String
  urlToImage : Option String
  pubDate : Option String
  category : Option (List String)
deriving DecidableEq, Repr

/-- Python truthiness of an optional string value
(`article.get(key)` used in a boolean position). -/
def optTruthy : Option String → Bool
  | some s => s ≠ ""
  | none => false

/-- The scoring loop body of
`NewsAutomationService.select_article_for_posting`: +10 for a media
reference, +5 for a present publish timestamp (presence only), +5 for a
description longer than 50 characters, +8 for a boosted category, -20
when the lowercased title contains a sensitive keyword. -/
def article_score (a : Article) : Int :=
  let title := a.title.getD ""
  let description := a.description.getD ""
  let title_lower := lowerStr title
  let s1 : Int := if optTruthy a.image_url then 10 else 0
  let s2 : Int := if optTruthy a.pubDate then 5 else 0
  let s3 : Int := if description ≠ "" ∧ description.length > 50 then 5 else 0
  let categories := a.category.getD []
  let s4 : Int :=
    if categories.any (fun cat =>
        cat ≠ "" && decide (lowerStr cat ∈ ["politics", "business", "technology"]))
    then 8 else 0
  let sensitive_keywords := ["death", "accident", "murder", "rape", "suicide"]
  let s5 : Int :=
    if sensitive_keywords.any (fun kw => strContains title_lower kw) then -20 else 0
  s1 + s2 + s3 + s4 + s5

/-- Embeds `NewsAutomationService.select_article_for_posting`: score
every article, stable-sort the (article, score) pairs by score
descending, and return the first article; `None` on an empty pool. -/
def select_article_for_posting (articles : List Article) : Option Article :=
  if articles = [] then none
  else
    let scored_articles := articles.map (fun a => (a, article_score a))
    match sortByKeyDesc Prod.snd scored_articles with
    | (a, _) :: _ => some a
    | [] => none

/-- The in-memory statistics counters of `NewsAutomationService`. -/
structure AutomationStats where
  total_posts : Nat
  successful_posts : Nat
  failed_posts : Nat
  news_posts : Nat
  reddit_posts : Nat
deriving DecidableEq, Repr

/-- The content-mode setting of the automation service. -/
inductive ContentMode where
  | mixed
  | reddit_only
  | news_only
deriving DecidableEq, Repr

/-- The mutable per-process state of the automation service that
`create_and_post_content` reads and writes. -/
structure AutomationState where
  content_mode : ContentMode
  post_news_next : Bool
  stats : AutomationStats
deriving DecidableEq, Repr

/-- External collaborators of one news cycle: the article pool produced
by `ensure_articles_available`, the text returned by the generator
(`None` is the rejection sentinel of `generate_content_from_news`), and
the Poster environment used by `smart_post`. -/
structure NewsCycleEnv where
  smartEnv : SmartEnv
  available_articles : List Article
  genResult : Option String

/-- The media URL handed to `smart_post` by `_post_news_content`:
`article.get("image_url") or article.get("urlToImage")`. -/
def newsImageUrl (a : Article) : Option String :=
  if optTruthy a.image_url then a.image_url else a.urlToImage

/-- Embeds `NewsAutomationService._post_news_content`: returns whether
the cycle succeeded.  A generator result of `None` (content rejected by
the LLM) returns `False`, exactly like an empty pool, a failed
generation, or a failed publish; an exception from `smart_post` is
caught by the blanket handler and also returns `False`. -/
def post_news_content (env : NewsCycleEnv) : Bool :=
  if env.available_articles = [] then false
  else
    match select_article_for_posting env.available_articles with
    | none => false
    | some article =>
      match env.genResult with
      | none => false
      | some content =>
        if content = "" then false
        else
          match (smart_post env.smartEnv content (newsImageUrl article)
              (article.title.getD "") (article.description.getD "") []).1 with
          | .ok r => optTruthy r.id
          | .error _ => false

/-- External collaborators of one full cycle: the news-cycle environment
and the outcome of `_post_reddit_content` (whose internals are not
needed by the properties below and are abstracted as a boolean). -/
structure CycleEnv where
  newsEnv : NewsCycleEnv
  redditSuccess : Bool

/-- Embeds the statistics and alternation bookkeeping of
`NewsAutomationService.create_and_post_content`: choose the post type
from the content mode, run the corresponding posting routine, count a
success [news or reddit counter, total, successful, and toggle the
alternation in mixed mode] or a failure [total and failed]. -/
def create_and_post_content (env : CycleEnv) (st : AutomationState) : AutomationState :=
  let post_type_news : Bool :=
    match st.content_mode with
    | .reddit_only => false
    | .news_only => true
    | .mixed => st.post_news_next
  let success := if post_type_news then post_news_content env.newsEnv else env.redditSuccess
  let stats1 :=
    if success then
      if post_type_news then { st.stats with news_posts := st.stats.news_posts + 1 }
      else { st.stats with reddit_posts := st.stats.reddit_posts + 1 }
    else st.stats
  if success then
    { content_mode := st.content_mode
      post_news_next :=
        if st.content_mode = ContentMode.mixed then !st.post_news_next else st.post_news_next
      stats := { stats1 with
        total_posts := stats1.total_posts + 1
        successful_posts := stats1.successful_posts + 1 } }
  else
    { st with stats := { stats1 with
        total_posts := stats1.total_posts + 1
        failed_posts := stats1.failed_posts + 1 } }

/-! Concrete fixtures used to instantiate the theorems below. -/

/-- A concrete stand-in for the md5 fallback hash (never reached by the
fixture posts, which carry native ids). -/
def fh0 : String → String := fun _ => "fallbackhash"

/-- A fixture Reddit post with a native id. -/
def p0 : RedditPost :=
  { id := some "abc123", title := "Ghost story", subreddit := "paranormal"
    created_utc := "100", score := 40, selftext := "I saw it", posted := false
    post_id := none, cached_at := none, posted_at := none }

/-- A second fixture Reddit post with a different native id. -/
def p1 : RedditPost :=
  { id := some "def456", title := "Strange lights", subreddit := "ufos"
    created_utc := "200", score := 10, selftext := "", posted := false
    post_id := none, cached_at := none, posted_at := none }

/-- The empty cache state. -/
def st0 : CacheState := { cache := [], posted := [] }

/-- The cached copies of the fixture posts, as stored by
`cache_reddit_posts` at time t0. -/
def c0 : RedditPost := markCached fh0 "t0" p0

/-- See `c0`. -/
def c1 : RedditPost := markCached fh0 "t0" p1

/-- A cache state holding both fixture posts, none posted yet. -/
def stW : CacheState := { cache := [c0, c1], posted := [] }

/-- Fixture article scoring 10: direct image only. -/
def articleA : Article :=
  { title := some "Article A", description := none
    image_url := some "http://a.example/a.jpg", urlToImage := none
    pubDate := none, category := none }

/-- Fixture article scoring 18: direct image plus boosted category. -/
def articleB : Article :=
  { title := some "Article B", description := none
    image_url := some "http://b.example/b.jpg", urlToImage := none
    pubDate := none, category := some ["technology"] }

/-- Fixture article scoring 10, tied with `articleA`. -/
def articleC : Article :=
  { title := some "Article C", description := none
    image_url := some "http://c.example/c.jpg", urlToImage := none
    pubDate := none, category := none }

/-- Poster environment where the video and photo publishes get a 400 and
the text publish succeeds; the artifact file is 5MB (over the 4MB photo
cap, under the 100MB video cap). -/
def envC5 : FBEnv :=
  { feedOutcome := fun _ => .success { id := some "tid1" }
    photoOutcome := fun _ => .badRequest false
    videoOutcome := fun _ => .badRequest false
    fileExists := true
    fileSize := 5000000
    isValidVideo := true }

/-- smart-post environment where the image download succeeds but every
publish call gets a 400, so the publish raises all the way out. -/
def envC7 : SmartEnv :=
  { feedOutcome := fun _ => .badRequest false
    photoOutcome := fun _ => .badRequest false
    videoOutcome := fun _ => .badRequest false
    fileExists := true
    fileSize := 1000
    isValidVideo := false
    downloadVideoResult := fun _ => none
    downloadImageResult := fun _ => some "reddit_image_1.jpg"
    aiImageResult := none }

/-- smart-post environment where the image download and the photo
publish both succeed. -/
def envC7ok : SmartEnv :=
  { feedOutcome := fun _ => .success { id := some "x" }
    photoOutcome := fun _ => .success { id := some "pid7" }
    videoOutcome := fun _ => .success { id := some "v" }
    fileExists := true
    fileSize := 1000
    isValidVideo := true
    downloadVideoResult := fun _ => none
    downloadImageResult := fun _ => some "f7.jpg"
    aiImageResult := none }

/-- Automation state in news-only mode with all counters at zero. -/
def st4 : AutomationState :=
  { content_mode := .news_only, post_news_next := true
    stats := { total_posts := 0, successful_posts := 0, failed_posts := 0
               news_posts := 0, reddit_posts := 0 } }

/-- Cycle environment whose generator signals the rejection sentinel
(`None`) while articles are available. -/
def env4 : CycleEnv :=
  { newsEnv := { smartEnv := envC7ok, available_articles := [articleA], genResult := none }
    redditSuccess := false }

/-! General lemmas about the stable sort and the key filters. -/

theorem insertDesc_perm (key : α → Int) (x : α) (l : List α) :
    (insertDesc key x l).Perm (x :: l) := by
  induction l with
  | nil => exact List.Perm.refl _
  | cons y ys ih =>
    rw [insertDesc]
    split
    · exact List.Perm.refl _
    · exact (ih.cons y).trans (List.Perm.swap x y ys)

theorem sortByKeyDesc_perm (key : α → Int) (l : List α) :
    (sortByKeyDesc key l).Perm l := by
  induction l with
  | nil => exact List.Perm.refl _
  | cons x xs ih => exact (insertDesc_perm key x _).trans (ih.cons x)

theorem generate_post_id_markCached (fh : String → String) (now : String) (p : RedditPost) :
    generate_post_id fh (markCached fh now p) = generate_post_id fh p := by
  cases p
  rfl

theorem keyFilter_nil (fh : String → String) (k : String) :
    keyFilter fh k [] = [] := rfl

theorem keyFilter_cons (fh : String → String) (k : String) (p : RedditPost)
    (l : List RedditPost) :
    keyFilter fh k (p :: l) =
      if generate_post_id fh p = k then p :: keyFilter fh k l else keyFilter fh k l := by
  by_cases h : generate_post_id fh p = k <;> simp [keyFilter, h]

theorem keyFilter_append (fh : String → String) (k : String) (l1 l2 : List RedditPost) :
    keyFilter fh k (l1 ++ l2) = keyFilter fh k l1 ++ keyFilter fh k l2 :=
  List.filter_append ..

theorem keyCount_eq_length (fh : String → String) (k : String) (l : List RedditPost) :
    keyCount fh k l = (keyFilter fh k l).length :=
  List.countP_eq_length_filter ..

theorem keyFilter_perm (fh : String → String) (k : String) (l1 l2 : List RedditPost)
    (h : l1.Perm l2) : (keyFilter fh k l1).Perm (keyFilter fh k l2) :=
  h.filter _

theorem keyFilter_eq_nil_of_not_mem (fh : String → String) (k : String)
    (l : List RedditPost) (h : k ∉ l.map (generate_post_id fh)) :
    keyFilter fh k l = [] := by
  refine List.filter_eq_nil_iff.mpr ?_
  intro q hq hk
  exact h (List.mem_map.mpr ⟨q, hq, of_decide_eq_true hk⟩)

/-- C6: `post_text` truncates every message to at most the 1000-character
ceiling before sending, with the three-character ellipsis marker counted
inside the limit; in particular a 1500-character input is sent with
length exactly 1000. -/
theorem C6_text_truncation (m : String) :
    (truncate_message m).length ≤ 1000 ∧
    (m.length = 1500 → (truncate_message m).length = 1000) := by
  unfold truncate_message
  by_cases h : m.length > 1000
  · rw [if_pos h]
    have hdata : 997 ≤ m.data.length := by
      have : m.length = m.data.length := rfl
      omega
    have hlen : (String.mk (m.data.take 997) ++ "...").length = 1000 := by
      rw [String.length_append]
      have h1 : (String.mk (m.data.take 997)).length = 997 := by
        show (m.data.take 997).length = 997
        rw [List.length_take]
        exact Nat.min_eq_left hdata
      rw [h1]
      rfl
    exact ⟨le_of_eq hlen, fun _ => hlen⟩
  · rw [if_neg h]
    exact ⟨Nat.le_of_not_lt h, fun h1500 => absurd (by omega : m.length > 1000) h⟩

/-- C6 witness: a concrete 1500-character message is sent with length
exactly 1000. -/
theorem C6_witness :
    (truncate_message (String.mk (List.replicate 1500 'a'))).length = 1000 :=
  (C6_text_truncation (String.mk (List.replicate 1500 'a'))).2 (by
    show (List.replicate 1500 'a').length = 1500
    rw [List.length_replicate])

/-- C5: when a video publish attempt (existing, size-admissible, valid
video file) gets a 400 from the platform or a transport failure, the
Poster retries the artifact as an image; when the image publish also
fails (oversized file, 400, or transport failure), it falls back to the
text-only publish and returns its success result instead of raising. -/
theorem C5_post_video_fallback_chain (env : FBEnv) (m : String) (r : FBResponse) (b b2 : Bool)
    (hex : env.fileExists = true)
    (hsz : env.fileSize ≤ 100 * 1024 * 1024)
    (hvalid : env.isValidVideo = true)
    (hvid : env.videoOutcome m = .badRequest b ∨ env.videoOutcome m = .transportError)
    (himg : env.fileSize > 4 * 1024 * 1024 ∨ env.photoOutcome m = .badRequest b2 ∨
      env.photoOutcome m = .transportError)
    (htxt : env.feedOutcome (truncate_message m) = .success r) :
    post_video env m = .ok r := by
  have htext : post_text env m = .ok r := by
    unfold post_text
    rw [htxt]
  have himage : post_image env m = .ok r := by
    unfold post_image
    rw [hex]
    simp only [Bool.not_true, Bool.false_eq_true, if_false]
    by_cases hs : env.fileSize > 4 * 1024 * 1024
    · rw [if_pos hs]
      exact htext
    · rw [if_neg hs]
      rcases himg with h | h | h
      · exact absurd h hs
      · rw [h]
        exact htext
      · rw [h]
        exact htext
  unfold post_video
  rw [hex]
  simp only [Bool.not_true, Bool.false_eq_true, if_false]
  rw [if_neg (Nat.not_lt.mpr hsz), hvalid]
  simp only [Bool.not_true, Bool.false_eq_true, if_false]
  rcases hvid with h | h
  · rw [h]
    exact himage
  · rw [h]
    exact himage

/-- C5 witness: with a 5MB artifact, a 400 on the video publish, a 400 on
the photo publish, and a successful text publish, `post_video` returns
the text-only result. -/
theorem C5_witness : post_video envC5 "hello" = .ok { id := some "tid1" } :=
  C5_post_video_fallback_chain envC5 "hello" { id := some "tid1" } false false
    rfl (by decide) rfl (Or.inl rfl) (Or.inl (by decide)) rfl

/-- C3: the selector is deterministic (it is a pure function of its
input list) and breaks score ties by original list order via the stable
descending sort; for the three fixture articles A (score 10),
B (score 18), C (score 10) given in order [A, B, C], the scored order is
[B, A, C] and B is selected. -/
theorem C3_selector_stable_ties :
    article_score articleA = 10 ∧ article_score articleB = 18 ∧ article_score articleC = 10 ∧
    (sortByKeyDesc Prod.snd
        ([articleA, articleB, articleC].map (fun a => (a, article_score a)))).map Prod.fst
      = [articleB, articleA, articleC] ∧
    select_article_for_posting [articleA, articleB, articleC] = some articleB := by
  refine ⟨by decide, by decide, by decide, by decide, by decide⟩

/-- C10: on a non-empty pool `select_article_for_posting` returns an
element of the pool (never `None`), for any combination of missing or
`None` article fields (fields are `Option`-typed and absent ones simply
contribute score 0); on the empty pool it returns `None` and in no case
does it raise (it is a total function). -/
theorem C10_selector_total (articles : List Article) :
    (articles ≠ [] → ∃ a ∈ articles, select_article_for_posting articles = some a) ∧
    select_article_for_posting ([] : List Article) = none := by
  constructor
  · intro hne
    unfold select_article_for_posting
    rw [if_neg hne]
    have hperm := sortByKeyDesc_perm (Prod.snd)
      (articles.map (fun a => (a, article_score a)))
    cases hsort : sortByKeyDesc Prod.snd (articles.map (fun a => (a, article_score a))) with
    | nil =>
      exfalso
      rw [hsort] at hperm
      exact hne (List.map_eq_nil_iff.mp hperm.nil_eq.symm)
    | cons hd tl =>
      rw [hsort] at hperm
      have hmem : hd ∈ articles.map (fun a => (a, article_score a)) :=
        hperm.mem_iff.mp (List.mem_cons_self hd tl)
      obtain ⟨a, ha, heq⟩ := List.mem_map.mp hmem
      refine ⟨a, ha, ?_⟩
      obtain ⟨a1, s1⟩ := hd
      simp only [hsort]
      have : a = a1 := congrArg Prod.fst heq
      rw [this]
  · rfl

/-- C10 witness: the singleton pool containing the fixture article is
non-empty and the selector picks an element of it. -/
theorem C10_witness :
    ∃ a ∈ [articleA], select_article_for_posting [articleA] = some a :=
  (C10_selector_total [articleA]).1 (by decide)

/-- C7 counterexample: in an environment where the image download
succeeds but the photo publish and its text fallback both get a 400, the
publish raises, `smart_post` propagates the exception, and the
downloaded artifact file is still on disk when the call exits — the
claimed cleanup on every exit path fails. -/
theorem C7_counterexample :
    (smart_post envC7 "msg" (some "http://a.example/pic.jpg") "Title" "Desc" []).1
        = .error (.valueError "Facebook API returned 400 Bad Request") ∧
    (smart_post envC7 "msg" (some "http://a.example/pic.jpg") "Title" "Desc" []).2
        = ["reddit_image_1.jpg"] := by
  refine ⟨by decide, by decide⟩

/-- C7 (amended): on every path on which `smart_post` returns normally —
publish succeeded, or a fallback inside the publish succeeded — the
media artifact file it created has been deleted before the return; when
the publish raises, however, the exception propagates and the file is
not deleted. -/
theorem C7_cleanup_on_return (env : SmartEnv) (message : String)
    (media_url : Option String) (article_title article_description : String)
    (preview_images : List PreviewImage) (r : FBResponse)
    (hok : (smart_post env message media_url article_title article_description
        preview_images).1 = .ok r) :
    (smart_post env message media_url article_title article_description
        preview_images).2 = [] := by
  unfold smart_post at hok ⊢
  cases hacq : acquire_media env media_url article_title article_description preview_images with
  | mk mp isv =>
    cases mp with
    | none => simp only [hacq]
    | some p =>
      cases hresp : (if isv then post_video env.toFBEnv message
          else post_image env.toFBEnv message) with
      | ok r2 => simp only [hacq, hresp]
      | error e =>
        rw [hacq] at hok
        simp only [hresp] at hok
        exact Except.noConfusion hok

/-- C7 witness: when the photo publish succeeds, the created artifact
file list is empty on return. -/
theorem C7_witness :
    (smart_post envC7ok "m" (some "http://a.example/pic.jpg") "T" "D" []).2 = [] :=
  C7_cleanup_on_return envC7ok "m" (some "http://a.example/pic.jpg") "T" "D" []
    { id := some "pid7" } (by decide)

/-- C4 counterexample: with articles available and the generator
returning the rejection sentinel, the cycle increments both
`failed_posts` and `total_posts`, so they are not unchanged as
claimed. -/
theorem C4_counterexample :
    ¬ ((create_and_post_content env4 st4).stats.failed_posts = st4.stats.failed_posts ∧
       (create_and_post_content env4 st4).stats.total_posts = st4.stats.total_posts) := by
  decide

/-- C4 (amended): when the external generator signals a policy refusal
(the `None` sentinel), the news cycle aborts and is counted as a failed
post: `failed_posts` and `total_posts` each increase by one, while
`successful_posts`, `news_posts` and the alternation flag are
unchanged. -/
theorem C4_rejection_counts_failed (env : CycleEnv) (st : AutomationState)
    (hmode : st.content_mode = ContentMode.news_only)
    (hrej : env.newsEnv.genResult = none) :
    (create_and_post_content env st).stats.failed_posts = st.stats.failed_posts + 1 ∧
    (create_and_post_content env st).stats.total_posts = st.stats.total_posts + 1 ∧
    (create_and_post_content env st).stats.successful_posts = st.stats.successful_posts ∧
    (create_and_post_content env st).stats.news_posts = st.stats.news_posts ∧
    (create_and_post_content env st).post_news_next = st.post_news_next := by
  have hfail : post_news_content env.newsEnv = false := by
    unfold post_news_content
    rw [hrej]
    split
    · rfl
    · cases select_article_for_posting env.newsEnv.available_articles <;> rfl
  unfold create_and_post_content
  rw [hmode]
  simp [hfail]

/-- C4 witness: the concrete rejection cycle increments the failure
counters from zero to one and leaves the others at zero. -/
theorem C4_witness :
    (create_and_post_content env4 st4).stats.failed_posts = st4.stats.failed_posts + 1 ∧
    (create_and_post_content env4 st4).stats.total_posts = st4.stats.total_posts + 1 ∧
    (create_and_post_content env4 st4).stats.successful_posts = st4.stats.successful_posts ∧
    (create_and_post_content env4 st4).stats.news_posts = st4.stats.news_posts ∧
    (create_and_post_content env4 st4).post_news_next = st4.post_news_next :=
  C4_rejection_counts_failed env4 st4 rfl rfl

/-! Lemmas about the per-batch caching loop. -/

theorem cacheNewPosts_nil (fh : String → String) (now : String)
    (postedIds cachedIds : List String) :
    cacheNewPosts fh now postedIds cachedIds [] = [] := rfl

theorem keyFilter_cacheNewPosts_seen (fh : String → String) (now : String)
    (postedIds : List String) (k : String) :
    ∀ (posts : List RedditPost) (cachedIds : List String), k ∈ cachedIds →
      keyFilter fh k (cacheNewPosts fh now postedIds cachedIds posts) = [] := by
  intro posts
  induction posts with
  | nil => intro cachedIds _; rfl
  | cons p ps ih =>
    intro cachedIds hk
    simp only [cacheNewPosts]
    by_cases h1 : generate_post_id fh p ∈ postedIds
    · rw [if_pos h1]
      exact ih cachedIds hk
    · rw [if_neg h1]
      by_cases h2 : generate_post_id fh p ∈ cachedIds
      · rw [if_pos h2]
        exact ih cachedIds hk
      · rw [if_neg h2, keyFilter_cons, generate_post_id_markCached]
        rw [if_neg (fun h : generate_post_id fh p = k => h2 (h.symm ▸ hk))]
        exact ih _ (List.mem_cons_of_mem _ hk)

theorem keyFilter_cacheNewPosts_first (fh : String → String) (now : String)
    (postedIds : List String) (k : String) (hkP : k ∉ postedIds) :
    ∀ (pre : List RedditPost) (p : RedditPost) (rest : List RedditPost)
      (cachedIds : List String), k ∉ cachedIds → generate_post_id fh p = k →
      (∀ q ∈ pre, generate_post_id fh q ≠ k) →
      keyFilter fh k (cacheNewPosts fh now postedIds cachedIds (pre ++ p :: rest))
        = [markCached fh now p] := by
  intro pre
  induction pre with
  | nil =>
    intro p rest cachedIds hkC hpk _
    simp only [List.nil_append, cacheNewPosts]
    rw [if_neg (fun h => hkP (hpk ▸ h)), if_neg (fun h => hkC (hpk ▸ h))]
    rw [keyFilter_cons, generate_post_id_markCached, if_pos hpk]
    rw [keyFilter_cacheNewPosts_seen fh now postedIds k rest
      (generate_post_id fh p :: cachedIds) (by rw [hpk]; exact List.mem_cons_self _ _)]
  | cons q pre ih =>
    intro p rest cachedIds hkC hpk hpre
    have hq : generate_post_id fh q ≠ k := hpre q (List.mem_cons_self q pre)
    have hpre2 : ∀ q2 ∈ pre, generate_post_id fh q2 ≠ k :=
      fun q2 hq2 => hpre q2 (List.mem_cons_of_mem q hq2)
    simp only [List.cons_append, cacheNewPosts]
    by_cases h1 : generate_post_id fh q ∈ postedIds
    · rw [if_pos h1]
      exact ih p rest cachedIds hkC hpk hpre2
    · rw [if_neg h1]
      by_cases h2 : generate_post_id fh q ∈ cachedIds
      · rw [if_pos h2]
        exact ih p rest cachedIds hkC hpk hpre2
      · rw [if_neg h2, keyFilter_cons, generate_post_id_markCached, if_neg hq]
        refine ih p rest (generate_post_id fh q :: cachedIds) ?_ hpk hpre2
        intro hmem
        rcases List.mem_cons.mp hmem with heq | hmem2
        · exact hq heq.symm
        · exact hkC hmem2

theorem keyFilter_cacheNewPosts_absent (fh : String → String) (now : String)
    (postedIds : List String) (k : String) :
    ∀ (posts : List RedditPost) (cachedIds : List String),
      (∀ q ∈ posts, generate_post_id fh q ≠ k) →
      keyFilter fh k (cacheNewPosts fh now postedIds cachedIds posts) = [] := by
  intro posts
  induction posts with
  | nil => intro cachedIds _; rfl
  | cons p ps ih =>
    intro cachedIds habs
    have hp : generate_post_id fh p ≠ k := habs p (List.mem_cons_self p ps)
    have habs2 : ∀ q ∈ ps, generate_post_id fh q ≠ k :=
      fun q hq => habs q (List.mem_cons_of_mem p hq)
    simp only [cacheNewPosts]
    by_cases h1 : generate_post_id fh p ∈ postedIds
    · rw [if_pos h1]
      exact ih cachedIds habs2
    · rw [if_neg h1]
      by_cases h2 : generate_post_id fh p ∈ cachedIds
      · rw [if_pos h2]
        exact ih cachedIds habs2
      · rw [if_neg h2, keyFilter_cons, generate_post_id_markCached, if_neg hp]
        exact ih _ habs2

/-- The pending cache after `cache_reddit_posts`, restricted to one key,
is a permutation of the old restriction followed by the restriction of
the accepted new posts. -/
theorem keyFilter_cache_reddit_posts (fh : String → String) (now : String)
    (st : CacheState) (posts : List RedditPost) (k : String) :
    (keyFilter fh k (cache_reddit_posts fh now st posts).1.cache).Perm
      (keyFilter fh k st.cache ++
        keyFilter fh k (cacheNewPosts fh now (st.posted.map PostedEntry.post_id)
          (st.cache.map (generate_post_id fh)) posts)) := by
  simp only [cache_reddit_posts]
  by_cases hp : posts = []
  · rw [if_pos hp, hp, cacheNewPosts_nil, keyFilter_nil, List.append_nil]
  · rw [if_neg hp]
    by_cases hn : cacheNewPosts fh now (st.posted.map PostedEntry.post_id)
        (st.cache.map (generate_post_id fh)) posts = []
    · rw [if_pos hn, hn, keyFilter_nil, List.append_nil]
    · rw [if_neg hn]
      refine (keyFilter_perm fh k _ _ (sortByKeyDesc_perm _ _)).trans ?_
      rw [keyFilter_append]

theorem cache_posts_posted_eq (fh : String → String) (now : String) (st : CacheState)
    (posts : List RedditPost) :
    (cache_reddit_posts fh now st posts).1.posted = st.posted := by
  simp only [cache_reddit_posts]
  by_cases hp : posts = []
  · rw [if_pos hp]
  · rw [if_neg hp]
    by_cases hn : cacheNewPosts fh now (st.posted.map PostedEntry.post_id)
        (st.cache.map (generate_post_id fh)) posts = []
    · rw [if_pos hn]
    · rw [if_neg hn]

theorem snd_cache_reddit_posts (fh : String → String) (now : String) (st : CacheState)
    (posts : List RedditPost) :
    (cache_reddit_posts fh now st posts).2
      = (cacheNewPosts fh now (st.posted.map PostedEntry.post_id)
          (st.cache.map (generate_post_id fh)) posts).length := by
  simp only [cache_reddit_posts]
  by_cases hp : posts = []
  · rw [if_pos hp, hp, cacheNewPosts_nil]
    rfl
  · rw [if_neg hp]
    by_cases hn : cacheNewPosts fh now (st.posted.map PostedEntry.post_id)
        (st.cache.map (generate_post_id fh)) posts = []
    · rw [if_pos hn, hn]
      rfl
    · rw [if_neg hn]

theorem exists_first_key (fh : String → String) (k : String) :
    ∀ (posts : List RedditPost), (∃ p ∈ posts, generate_post_id fh p = k) →
      ∃ pre q rest, posts = pre ++ q :: rest ∧ generate_post_id fh q = k ∧
        ∀ r ∈ pre, generate_post_id fh r ≠ k := by
  intro posts
  induction posts with
  | nil => rintro ⟨p, hp, _⟩; exact absurd hp (List.not_mem_nil p)
  | cons a as ih =>
    intro h
    by_cases ha : generate_post_id fh a = k
    · exact ⟨[], a, as, rfl, ha, fun r hr => absurd hr (List.not_mem_nil r)⟩
    · obtain ⟨p, hp, hpk⟩ := h
      rcases List.mem_cons.mp hp with heq | hp2
      · exact absurd (heq ▸ hpk) ha
      · obtain ⟨pre, q, rest, hdec, hq, hpre⟩ := ih ⟨p, hp2, hpk⟩
        refine ⟨a :: pre, q, rest, by rw [hdec]; rfl, hq, ?_⟩
        intro r hr
        rcases List.mem_cons.mp hr with heq2 | hr2
        · exact heq2 ▸ ha
        · exact hpre r hr2

/-- C1: if an identity key is new to the pending cache and to the
ever-posted log, then after a first `cache_reddit_posts` call whose
batch contains a post with that key, exactly one record with that key is
stored; a second call whose batch re-adds the same key leaves exactly
that one record, bit-for-bit unchanged (skipped as a duplicate, not
overwritten), and when the second batch is just the duplicate item the
second call reports 0 newly added. -/
theorem C1_cache_idempotent (fh : String → String) (now1 now2 : String) (st : CacheState)
    (posts1 posts2 : List RedditPost) (p p2 : RedditPost)
    (hp : p ∈ posts1) (hp2 : p2 ∈ posts2)
    (hsame : generate_post_id fh p2 = generate_post_id fh p)
    (h0 : generate_post_id fh p ∉ st.cache.map (generate_post_id fh))
    (h1 : generate_post_id fh p ∉ st.posted.map PostedEntry.post_id) :
    keyCount fh (generate_post_id fh p) (cache_reddit_posts fh now1 st posts1).1.cache = 1 ∧
    keyCount fh (generate_post_id fh p)
        (cache_reddit_posts fh now2 (cache_reddit_posts fh now1 st posts1).1 posts2).1.cache
      = 1 ∧
    keyFilter fh (generate_post_id fh p)
        (cache_reddit_posts fh now2 (cache_reddit_posts fh now1 st posts1).1 posts2).1.cache
      = keyFilter fh (generate_post_id fh p) (cache_reddit_posts fh now1 st posts1).1.cache ∧
    (posts2 = [p2] →
      (cache_reddit_posts fh now2 (cache_reddit_posts fh now1 st posts1).1 posts2).2 = 0) := by
  obtain ⟨pre, q, rest, hdec, hqk, hpre⟩ :=
    exists_first_key fh (generate_post_id fh p) posts1 ⟨p, hp, rfl⟩
  have hnew1 : keyFilter fh (generate_post_id fh p)
      (cacheNewPosts fh now1 (st.posted.map PostedEntry.post_id)
        (st.cache.map (generate_post_id fh)) posts1) = [markCached fh now1 q] := by
    rw [hdec]
    exact keyFilter_cacheNewPosts_first fh now1 _ _ h1 pre q rest _ h0 hqk hpre
  have hfilter1 : keyFilter fh (generate_post_id fh p)
      (cache_reddit_posts fh now1 st posts1).1.cache = [markCached fh now1 q] := by
    have hperm := keyFilter_cache_reddit_posts fh now1 st posts1 (generate_post_id fh p)
    rw [keyFilter_eq_nil_of_not_mem fh _ st.cache h0, hnew1, List.nil_append] at hperm
    exact List.perm_singleton.mp hperm
  have hcount1 : keyCount fh (generate_post_id fh p)
      (cache_reddit_posts fh now1 st posts1).1.cache = 1 := by
    rw [keyCount_eq_length, hfilter1]
    rfl
  have hmem1 : generate_post_id fh p ∈
      (cache_reddit_posts fh now1 st posts1).1.cache.map (generate_post_id fh) := by
    have hin : markCached fh now1 q ∈ keyFilter fh (generate_post_id fh p)
        (cache_reddit_posts fh now1 st posts1).1.cache := by
      rw [hfilter1]
      exact List.mem_cons_self _ _
    refine List.mem_map.mpr ⟨markCached fh now1 q, List.mem_of_mem_filter hin, ?_⟩
    rw [generate_post_id_markCached, hqk]
  have hnew2 : keyFilter fh (generate_post_id fh p)
      (cacheNewPosts fh now2
        ((cache_reddit_posts fh now1 st posts1).1.posted.map PostedEntry.post_id)
        ((cache_reddit_posts fh now1 st posts1).1.cache.map (generate_post_id fh))
        posts2) = [] :=
    keyFilter_cacheNewPosts_seen fh now2 _ _ posts2 _ hmem1
  have hfilter2 : keyFilter fh (generate_post_id fh p)
      (cache_reddit_posts fh now2 (cache_reddit_posts fh now1 st posts1).1 posts2).1.cache
      = [markCached fh now1 q] := by
    have hperm := keyFilter_cache_reddit_posts fh now2
      (cache_reddit_posts fh now1 st posts1).1 posts2 (generate_post_id fh p)
    rw [hnew2, List.append_nil, hfilter1] at hperm
    exact List.perm_singleton.mp hperm
  refine ⟨hcount1, ?_, hfilter2.trans hfilter1.symm, ?_⟩
  · rw [keyCount_eq_length, hfilter2]
    rfl
  · intro hposts2
    subst hposts2
    rw [snd_cache_reddit_posts]
    have hsingle : cacheNewPosts fh now2
        ((cache_reddit_posts fh now1 st posts1).1.posted.map PostedEntry.post_id)
        ((cache_reddit_posts fh now1 st posts1).1.cache.map (generate_post_id fh))
        [p2] = [] := by
      simp only [cacheNewPosts]
      by_cases ha : generate_post_id fh p2 ∈
          (cache_reddit_posts fh now1 st posts1).1.posted.map PostedEntry.post_id
      · rw [if_pos ha]
      · rw [if_neg ha, if_pos (by rw [hsame]; exact hmem1)]
    rw [hsingle]
    rfl

/-- C1 witness: caching the fixture post twice into the empty cache
stores one record, keeps it unchanged, and reports 0 on the second
call. -/
theorem C1_witness :
    keyCount fh0 (generate_post_id fh0 p0) (cache_reddit_posts fh0 "t1" st0 [p0]).1.cache = 1 ∧
    keyCount fh0 (generate_post_id fh0 p0)
        (cache_reddit_posts fh0 "t2" (cache_reddit_posts fh0 "t1" st0 [p0]).1 [p0]).1.cache
      = 1 ∧
    keyFilter fh0 (generate_post_id fh0 p0)
        (cache_reddit_posts fh0 "t2" (cache_reddit_posts fh0 "t1" st0 [p0]).1 [p0]).1.cache
      = keyFilter fh0 (generate_post_id fh0 p0) (cache_reddit_posts fh0 "t1" st0 [p0]).1.cache ∧
    ([p0] = [p0] →
      (cache_reddit_posts fh0 "t2" (cache_reddit_posts fh0 "t1" st0 [p0]).1 [p0]).2 = 0) :=
  C1_cache_idempotent fh0 "t1" "t2" st0 [p0] [p0] p0 p0 (by decide) (by decide) rfl
    (by decide) (by decide)

theorem clean_posted_eq (fresh : String → Bool) (st : CacheState) :
    (clean_old_reddit_posts fresh st).1.posted = st.posted := by
  simp only [clean_old_reddit_posts]
  split <;> rfl

theorem applyOp_posted_mono (fh : String → String) (op : CacheOp) (st : CacheState)
    (k : String) (hop : op ≠ CacheOp.resetCache)
    (hk : k ∈ st.posted.map PostedEntry.post_id) :
    k ∈ (applyOp fh op st).posted.map PostedEntry.post_id := by
  cases op with
  | cacheBatch now posts =>
    simpa only [applyOp, cache_posts_posted_eq] using hk
  | markPosted now p fbid =>
    simp only [applyOp, mark_reddit_post_as_posted]
    rw [List.map_append]
    exact List.mem_append_left _ hk
  | cleanOld fresh =>
    simpa only [applyOp, clean_posted_eq] using hk
  | resetCache => exact absurd rfl hop

theorem applyOps_posted_mono (fh : String → String) :
    ∀ (ops : List CacheOp), (∀ op ∈ ops, op ≠ CacheOp.resetCache) →
      ∀ (st : CacheState) (k : String), k ∈ st.posted.map PostedEntry.post_id →
        k ∈ (applyOps fh ops st).posted.map PostedEntry.post_id := by
  intro ops
  induction ops with
  | nil => intro _ st k hk; exact hk
  | cons op ops ih =>
    intro hops st k hk
    exact ih (fun o ho => hops o (List.mem_cons_of_mem op ho)) _ k
      (applyOp_posted_mono fh op st k (hops op (List.mem_cons_self op ops)) hk)

theorem get_unposted_not_posted (fh : String → String) (st : CacheState)
    (limit : Option Nat) (q : RedditPost)
    (hq : q ∈ get_unposted_reddit_posts fh st limit) :
    generate_post_id fh q ∉ st.posted.map PostedEntry.post_id := by
  have hq2 : q ∈ sortByKeyDesc RedditPost.score (st.cache.filter
      (fun p => !p.posted &&
        !(decide (generate_post_id fh p ∈ st.posted.map PostedEntry.post_id)))) := by
    cases limit with
    | none => exact hq
    | some n =>
      simp only [get_unposted_reddit_posts] at hq
      by_cases hn : n = 0
      · rw [if_pos hn] at hq
        exact hq
      · rw [if_neg hn] at hq
        exact List.mem_of_mem_take hq
  have hq3 := (sortByKeyDesc_perm RedditPost.score _).mem_iff.mp hq2
  have hcond := (List.mem_filter.mp hq3).2
  rw [Bool.and_eq_true] at hcond
  simpa using hcond.2

/-- C2 counterexample: after marking the fixture post as posted, the
cache-operation sequence [reset, cache the same post again] makes a
record with exactly its identity key reappear in `get_unposted` —
`reset_reddit_cache` clears the ever-posted log, so posting is not
monotonic over arbitrary operation sequences. -/
theorem C2_counterexample :
    (get_unposted_reddit_posts fh0
        (applyOps fh0 [CacheOp.resetCache, CacheOp.cacheBatch "t3" [p0]]
          (mark_reddit_post_as_posted fh0 "t2"
            (applyOp fh0 (CacheOp.cacheBatch "t1" [p0]) st0) p0 (some "fb1")))
        none).map (generate_post_id fh0)
      = [generate_post_id fh0 p0] := by
  decide

/-- C2 (amended): once `mark_reddit_post_as_posted` has been called for
an item, no record with its identity key ever appears in
`get_unposted_reddit_posts` again, in any state reachable by a sequence
of cache operations that does not include `reset_reddit_cache` (which
clears the ever-posted log). -/
theorem C2_mark_posted_monotonic (fh : String → String) (st : CacheState) (p : RedditPost)
    (now : String) (fbid : Option String) (ops : List CacheOp) (limit : Option Nat)
    (q : RedditPost)
    (hops : ∀ op ∈ ops, op ≠ CacheOp.resetCache)
    (hq : q ∈ get_unposted_reddit_posts fh
        (applyOps fh ops (mark_reddit_post_as_posted fh now st p fbid)) limit) :
    generate_post_id fh q ≠ generate_post_id fh p := by
  intro heq
  have hmark : generate_post_id fh p ∈
      (mark_reddit_post_as_posted fh now st p fbid).posted.map PostedEntry.post_id := by
    simp only [mark_reddit_post_as_posted]
    rw [List.map_append]
    refine List.mem_append_right _ ?_
    simp [mkPostedEntry]
  have hmono := applyOps_posted_mono fh ops hops _ _ hmark
  have hnot := get_unposted_not_posted fh _ limit q hq
  rw [heq] at hnot
  exact hnot hmono

/-- C2 witness: with both fixture posts cached and the first marked as
posted, the second still appears in `get_unposted` and its key indeed
differs from the marked key. -/
theorem C2_witness : generate_post_id fh0 c1 ≠ generate_post_id fh0 p0 :=
  C2_mark_posted_monotonic fh0 stW p0 "t2" (some "fb") [] none c1
    (fun op h => absurd h (List.not_mem_nil op)) (by decide)

theorem setPostedFirst_append (fh : String → String) (pid now : String) (r : RedditPost)
    (hr : generate_post_id fh r = pid) :
    ∀ (pre post : List RedditPost), (∀ q ∈ pre, generate_post_id fh q ≠ pid) →
      setPostedFirst fh pid now (pre ++ r :: post)
        = pre ++ { r with posted := true, posted_at := some now } :: post := by
  intro pre
  induction pre with
  | nil =>
    intro post _
    simp only [List.nil_append, setPostedFirst, if_pos hr]
  | cons a as ih =>
    intro post h
    have ha : generate_post_id fh a ≠ pid := h a (List.mem_cons_self a as)
    simp only [List.cons_append, setPostedFirst, if_neg ha]
    exact congrArg (List.cons a) (ih post (fun q hq => h q (List.mem_cons_of_mem a hq)))

/-- C8: when the pending cache holds exactly one record whose identity
key matches the marked item, `mark_reddit_post_as_posted` rewrites the
cache with only that record changed (its `posted` flag set and its
`posted_at` stamped), every other record and the record order untouched,
and appends exactly one entry to the ever-posted log, leaving the
existing log entries unaltered. -/
theorem C8_mark_posted_frame (fh : String → String) (now : String) (st : CacheState)
    (p r : RedditPost) (fbid : Option String) (pre post : List RedditPost)
    (hdecomp : st.cache = pre ++ r :: post)
    (hr : generate_post_id fh r = generate_post_id fh p)
    (hpre : ∀ q ∈ pre, generate_post_id fh q ≠ generate_post_id fh p)
    (_hpost : ∀ q ∈ post, generate_post_id fh q ≠ generate_post_id fh p) :
    (mark_reddit_post_as_posted fh now st p fbid).cache
        = pre ++ { r with posted := true, posted_at := some now } :: post ∧
    (mark_reddit_post_as_posted fh now st p fbid).posted
        = st.posted ++ [mkPostedEntry fh now p fbid] := by
  constructor
  · simp only [mark_reddit_post_as_posted]
    rw [hdecomp]
    exact setPostedFirst_append fh _ now r hr pre post hpre
  · rfl

/-- C8 witness: marking the fixture post in a two-record cache updates
exactly the matching record and appends one log entry. -/
theorem C8_witness :
    (mark_reddit_post_as_posted fh0 "t9"
        { cache := [c1, c0], posted := [] } p0 (some "fb")).cache
      = [c1] ++ { c0 with posted := true, posted_at := some "t9" } :: [] ∧
    (mark_reddit_post_as_posted fh0 "t9"
        { cache := [c1, c0], posted := [] } p0 (some "fb")).posted
      = [] ++ [mkPostedEntry fh0 "t9" p0 (some "fb")] :=
  C8_mark_posted_frame fh0 "t9" { cache := [c1, c0], posted := [] } p0 c0 (some "fb")
    [c1] [] rfl (by decide) (by decide) (by decide)

theorem cacheNewPosts_map_gid (fh : String → String) (now : String) (postedIds : List String) :
    ∀ (posts : List RedditPost) (cachedIds : List String),
      (cacheNewPosts fh now postedIds cachedIds posts).map (generate_post_id fh)
        = dedupKeepFirst cachedIds ((posts.map (generate_post_id fh)).filter
            (fun k => !(decide (k ∈ postedIds)))) := by
  intro posts
  induction posts with
  | nil => intro cachedIds; rfl
  | cons p ps ih =>
    intro cachedIds
    simp only [cacheNewPosts, List.map_cons]
    by_cases h1 : generate_post_id fh p ∈ postedIds
    · rw [if_pos h1, List.filter_cons_of_neg (by simp [h1])]
      exact ih cachedIds
    · rw [List.filter_cons_of_pos (by simp [h1]), if_neg h1]
      simp only [dedupKeepFirst]
      by_cases h2 : generate_post_id fh p ∈ cachedIds
      · rw [if_pos h2, if_pos h2]
        exact ih cachedIds
      · rw [if_neg h2, if_neg h2, List.map_cons, generate_post_id_markCached]
        exact congrArg (List.cons _) (ih _)

theorem dedupKeepFirst_spec : ∀ (l seen : List String),
    (dedupKeepFirst seen l).Nodup ∧ ∀ k ∈ dedupKeepFirst seen l, k ∉ seen := by
  intro l
  induction l with
  | nil => intro seen; exact ⟨List.nodup_nil, fun k hk => absurd hk (List.not_mem_nil k)⟩
  | cons k ks ih =>
    intro seen
    by_cases h : k ∈ seen
    · simp only [dedupKeepFirst, if_pos h]
      exact ih seen
    · simp only [dedupKeepFirst, if_neg h]
      obtain ⟨hnd, hdis⟩ := ih (k :: seen)
      constructor
      · rw [List.nodup_cons]
        exact ⟨fun hk => hdis k hk (List.mem_cons_self k seen), hnd⟩
      · intro k2 hk2
        rcases List.mem_cons.mp hk2 with heq | h2
        · exact heq ▸ h
        · exact fun hs => hdis k2 h2 (List.mem_cons_of_mem k hs)

theorem map_gid_cache_reddit_posts (fh : String → String) (now : String) (st : CacheState)
    (posts : List RedditPost) :
    ((cache_reddit_posts fh now st posts).1.cache.map (generate_post_id fh)).Perm
      (st.cache.map (generate_post_id fh) ++
        (cacheNewPosts fh now (st.posted.map PostedEntry.post_id)
          (st.cache.map (generate_post_id fh)) posts).map (generate_post_id fh)) := by
  simp only [cache_reddit_posts]
  by_cases hp : posts = []
  · rw [if_pos hp, hp, cacheNewPosts_nil]
    simp
  · rw [if_neg hp]
    by_cases hn : cacheNewPosts fh now (st.posted.map PostedEntry.post_id)
        (st.cache.map (generate_post_id fh)) posts = []
    · rw [if_pos hn, hn]
      simp
    · rw [if_neg hn]
      refine ((sortByKeyDesc_perm _ _).map _).trans ?_
      rw [List.map_append]

/-- C9: duplicates inside one batch are deduplicated by
`cache_reddit_posts`: the returned count is the number of distinct
identity keys in the batch that are neither cached nor in the ever-posted
log (first-occurrence deduplication), the resulting cache still has
pairwise distinct keys, and for a new key the record stored is the first
batch occurrence carrying it. -/
theorem C9_batch_dedup (fh : String → String) (now : String) (st : CacheState)
    (posts : List RedditPost)
    (hnodup : (st.cache.map (generate_post_id fh)).Nodup) :
    (cache_reddit_posts fh now st posts).2
      = (dedupKeepFirst (st.cache.map (generate_post_id fh))
          ((posts.map (generate_post_id fh)).filter
            (fun k => !(decide (k ∈ st.posted.map PostedEntry.post_id))))).length ∧
    ((cache_reddit_posts fh now st posts).1.cache.map (generate_post_id fh)).Nodup ∧
    (∀ (pre : List RedditPost) (p : RedditPost) (rest : List RedditPost),
      posts = pre ++ p :: rest →
      generate_post_id fh p ∉ st.cache.map (generate_post_id fh) →
      generate_post_id fh p ∉ st.posted.map PostedEntry.post_id →
      (∀ q ∈ pre, generate_post_id fh q ≠ generate_post_id fh p) →
      keyFilter fh (generate_post_id fh p) (cache_reddit_posts fh now st posts).1.cache
        = [markCached fh now p]) := by
  refine ⟨?_, ?_, ?_⟩
  · rw [snd_cache_reddit_posts]
    have h := congrArg List.length (cacheNewPosts_map_gid fh now
      (st.posted.map PostedEntry.post_id) posts (st.cache.map (generate_post_id fh)))
    rwa [List.length_map] at h
  · rw [(map_gid_cache_reddit_posts fh now st posts).nodup_iff, List.nodup_append]
    obtain ⟨hnd, hdis⟩ := dedupKeepFirst_spec
      ((posts.map (generate_post_id fh)).filter
        (fun k => !(decide (k ∈ st.posted.map PostedEntry.post_id))))
      (st.cache.map (generate_post_id fh))
    refine ⟨hnodup, ?_, ?_⟩
    · rw [cacheNewPosts_map_gid]
      exact hnd
    · intro a ha hb
      rw [cacheNewPosts_map_gid] at hb
      exact hdis a hb ha
  · intro pre p rest hdec hc hpo hpre
    have hnew : keyFilter fh (generate_post_id fh p)
        (cacheNewPosts fh now (st.posted.map PostedEntry.post_id)
          (st.cache.map (generate_post_id fh)) posts) = [markCached fh now p] := by
      rw [hdec]
      exact keyFilter_cacheNewPosts_first fh now _ _ hpo pre p rest _ hc rfl hpre
    have hperm := keyFilter_cache_reddit_posts fh now st posts (generate_post_id fh p)
    rw [keyFilter_eq_nil_of_not_mem fh _ st.cache hc, hnew, List.nil_append] at hperm
    exact List.perm_singleton.mp hperm

/-- C9 witness: the batch [p0, p0, p1] into the empty cache yields a
count of 2 (two distinct new keys, not three input posts) and stores the
first occurrence of the duplicated key. -/
theorem C9_witness :
    (cache_reddit_posts fh0 "t1" st0 [p0, p0, p1]).2 = 2 ∧
    keyFilter fh0 (generate_post_id fh0 p0)
        (cache_reddit_posts fh0 "t1" st0 [p0, p0, p1]).1.cache
      = [markCached fh0 "t1" p0] :=
  ⟨((C9_batch_dedup fh0 "t1" st0 [p0, p0, p1] (by decide)).1).trans (by decide),
   (C9_batch_dedup fh0 "t1" st0 [p0, p0, p1] (by decide)).2.2 [] p0 [p0, p1] rfl
     (by decide) (by decide) (fun q hq => absurd hq (List.not_mem_nil q))⟩

end BeyondBelief
